import Mathlib

/-!
Shallow embedding of the optimizer core of this repository
(the exterior-point driver `step`, the inner minimizer `minimize`, the
L-BFGS preconditioner `lbfgs`, the Armijo/weak-Wolfe line search
`awLineSearch2`, and the problem builder `genOptProblem`), together with
proofs settling the specification claims about them.

Modelling conventions:
* JavaScript 64-bit floats are modelled as exact rationals (`ℚ`).
* `Infinity` occurs only as the initial upper bracket bound `b` of the
  line search; `b` is therefore modelled as `Option ℚ`, with `none`
  standing for `Infinity`.
* NaN matters only for the NaN-detection helper `containsNaN`, which is
  modelled separately over a small type of JavaScript values, so that its
  `for...in` iteration semantics can be captured exactly.
* JavaScript exceptions (`throw Error(...)`) are modelled with `Except`.
* A `Set<number>` is modelled by a `List ℕ` together with membership,
  which is all the source uses (`has`).
-/

set_option maxRecDepth 4000

namespace PenroseOpt

/-! ### Vector helpers -/

/-- Modelled from the spec: `dot` from `utils/Util` (an external collaborator
module), the inner product `⟨u, v⟩` used throughout the optimizer. -/
def dot (u v : List ℚ) : ℚ := (List.zipWith (fun a b => a * b) u v).sum

/-- Modelled from the spec: `addv` from `utils/Util`, componentwise vector sum. -/
def addv (u v : List ℚ) : List ℚ := List.zipWith (fun a b => a + b) u v

/-- Modelled from the spec: `subv` from `utils/Util`, componentwise vector difference. -/
def subv (u v : List ℚ) : List ℚ := List.zipWith (fun a b => a - b) u v

/-- Modelled from the spec: `negv` from `utils/Util`, componentwise negation. -/
def negv (u : List ℚ) : List ℚ := u.map (fun a => -a)

/-- Modelled from the spec: `scalev` from `utils/Util`, scalar times vector. -/
def scalev (c : ℚ) (u : List ℚ) : List ℚ := u.map (fun a => c * a)

/-- Modelled from the spec: `zip2` from `utils/Util`. -/
def zip2 {α β : Type} (u : List α) (v : List β) : List (α × β) :=
  List.zipWith (fun a b => (a, b)) u v

/-- Modelled from the spec: `zip3` from `utils/Util`. -/
def zip3 {α β γ : Type} : List α → List β → List γ → List (α × β × γ)
  | a :: as, b :: bs, c :: cs => (a, b, c) :: zip3 as bs cs
  | _, _, _ => []

/-! ### Global constants of the optimizer

Source: `const weightGrowthFactor = 10`, `const constraintWeight = 10e4`,
`const epStop = 1e-3`, `const EPSD = 1e-11`, `const uoStop = 1e-2`.
Note that the JavaScript literal `10e4` denotes `10·10⁴ = 100000 = 10⁵`,
and `10e-10` (in the line search) denotes `10·10⁻¹⁰ = 10⁻⁹`. -/

/-- growth factor for constraint weights (source: `weightGrowthFactor = 10`). -/
def weightGrowthFactor : ℚ := 10

/-- weight for constraints (source: `constraintWeight = 10e4`, i.e. `10·10⁴ = 10⁵`). -/
def constraintWeight : ℚ := 10 * 10 ^ 4

/-- EP method convergence criterion (source: `epStop = 1e-3`). -/
def epStop : ℚ := 1 / 1000

/-- division safety epsilon (source: `EPSD = 1e-11`). -/
def EPSD : ℚ := 1 / 100000000000

/-- unconstrained method convergence criterion (source: `uoStop = 1e-2`). -/
def uoStop : ℚ := 1 / 100

/-- Modelled from the spec: `initConstraintWeight` from `engine/EngineUtils`
(an external collaborator module), the problem-supplied initial EP weight.
No claim depends on its value; it is fixed here at `10⁻²`. -/
def initConstraintWeight : ℚ := 1 / 100

/-! ### The NaN-detection helper `containsNaN`

The source is

```
const containsNaN = (numberList: number[]): boolean => {
  for (const n in numberList) {
    if (Number.isNaN(n)) {
      return true;
    }
  }
  return false;
};
```

`for (const n in numberList)` iterates over the *keys* of the array, which
are the index strings `"0"`, `"1"`, …, not over its elements, and
`Number.isNaN` returns `true` only when its argument is the NaN number
value (it performs no coercion, so it returns `false` on every string).
To capture this exactly we model a JavaScript number as either NaN or a
numeric value, and a JavaScript value as either a string or a number. -/

/-- A JavaScript number: NaN or an ordinary numeric value (modelled as `ℚ`). -/
inductive JSNum where
  | nan : JSNum
  | val : ℚ → JSNum
deriving DecidableEq

/-- A JavaScript value as far as `containsNaN` is concerned: a string or a number. -/
inductive JSVal where
  | str : String → JSVal
  | num : JSNum → JSVal
deriving DecidableEq

/-- `Number.isNaN`: true exactly on the NaN number value; no coercion, so
false on every string. -/
def numberIsNaN : JSVal → Bool
  | .num .nan => true
  | _ => false

/-- The keys a `for...in` loop visits on an array of the given length: the
index strings `"0"`, `"1"`, …. -/
def forInKeys (len : ℕ) : List JSVal :=
  (List.range len).map (fun i => JSVal.str (toString i))

/-- `containsNaN` as written in the source: it iterates the array's keys
(`for...in`) and applies `Number.isNaN` to each key. -/
def containsNaN (numberList : List JSNum) : Bool :=
  (forInKeys numberList.length).any numberIsNaN

/-- Modelled from the spec: the NaN detection the specification describes
("NaN detected in `x`"), i.e. value-wise detection over the elements. -/
def containsNaNSpec (numberList : List JSNum) : Bool :=
  numberList.any (fun n => match n with | .nan => true | .val _ => false)

/-! ### The oracle interface -/

/-- Result of one oracle evaluation, as destructured by the optimizer:
`{ f, gradf, objEngs, constrEngs }`. -/
structure FnEvaled where
  f : ℚ
  gradf : List ℚ
  objEngs : List ℚ
  constrEngs : List ℚ
deriving DecidableEq

/-- `FnCached` (types/state): the compiled objective-and-gradient oracle. -/
def FnCached : Type := List ℚ → FnEvaled

/-! ### Convergence predicates -/

/-- `unconstrainedConverged2`: `‖grad f(x)‖`-style quantity below `uoStop`. -/
def unconstrainedConverged2 (normGrad : ℚ) : Bool :=
  decide (normGrad < uoStop)

/-- `epConverged2`.  The source compares `normList(subv(xs1, xs0))`, the
Euclidean norm `‖xs1 − xs0‖₂`, against `epStop`; since both sides are
nonnegative this is equivalent to comparing the squared norm (which is the
rational `dot` of the difference with itself) against `epStop²`, avoiding
the square root. -/
def epConverged2 (xs0 xs1 : List ℚ) (fxs0 fxs1 : ℚ) : Bool :=
  let stateChangeSq := dot (subv xs1 xs0) (subv xs1 xs0)
  let energyChange := |fxs1 - fxs0|
  decide (stateChangeSq < epStop ^ 2) || decide (energyChange < epStop)

/-! ### The line search `awLineSearch2`

Hyperparameters from the source: `c1 = 0.001` (Armijo), `c2 = 0.9`
(Wolfe), `minInterval = 10e-10` (i.e. `10⁻⁹`), initial `t = 1`, initial
bracket `[a, b] = [0, Infinity)`, `maxSteps = 10` by default.  The upper
bracket bound `b` is `Option ℚ`, `none` standing for `Infinity`. -/

/-- Armijo constant (source: `c1 = 0.001`). -/
def c1 : ℚ := 1 / 1000

/-- Wolfe constant (source: `c2 = 0.9`). -/
def c2 : ℚ := 9 / 10

/-- minimal bracket width (source: `minInterval = 10e-10`, i.e. `10·10⁻¹⁰ = 10⁻⁹`). -/
def minInterval : ℚ := 10 / 10000000000

/-- Armijo condition test: `objective ≤ fxs0 + c1·t·⟨d, grad f(x₀)⟩`
(the oracle value `objective` is computed by the caller). -/
def armijo (fxs0 dufAtx0 ti objective : ℚ) : Bool :=
  decide (objective ≤ fxs0 + c1 * ti * dufAtx0)

/-- Weak Wolfe condition test: `⟨d, grad f(x₀ + t·d)⟩ ≥ c2·⟨d, grad f(x₀)⟩`
(the source sets `wolfe = weakWolfe`). -/
def weakWolfe (descentDir : List ℚ) (dufAtx0 : ℚ) (gradient : List ℚ) : Bool :=
  decide (dot descentDir gradient ≥ c2 * dufAtx0)

/-- `|b − a| < minInterval`, where `b = Infinity` (`none`) never counts as
a too-small interval. -/
def intervalTooSmall (ai : ℚ) (bi : Option ℚ) : Bool :=
  match bi with
  | none => false
  | some b => decide (|b - ai| < minInterval)

/-- `shouldStop` of the line search: interval too small, or too many steps
(`numUpdates > maxSteps`).  The `t` argument is unused by the source
(it is only logged). -/
def shouldStop (maxSteps numUpdates : ℕ) (ai : ℚ) (bi : Option ℚ) (_t : ℚ) : Bool :=
  intervalTooSmall ai bi || decide (numUpdates > maxSteps)

/-- The mutable state of the line-search loop: bracket `[a, b]`, current
step length `t`, iteration counter `i`. -/
structure LSState where
  a : ℚ
  b : Option ℚ
  t : ℚ
  i : ℕ
deriving DecidableEq

/-- How the line-search loop exited: via `shouldStop`, or by accepting a
step satisfying both Armijo and Wolfe (the `break`).  This is ghost
instrumentation used only to state properties; the source returns just `t`. -/
inductive LSExit where
  | stopped : LSExit
  | accepted : LSExit
deriving DecidableEq

/-- Final loop state plus (ghost) exit kind of the line-search loop. -/
structure LSOut where
  st : LSState
  exit : LSExit
deriving DecidableEq

/-- The main loop of `awLineSearch2`.  One iteration: evaluate
`f(x₀ + t·d)`, test Armijo and Wolfe; if Armijo fails set `b ← t`, else if
Wolfe fails set `a ← t`, else accept `t`; then `t ← (a + b)/2` if
`b < Infinity` else `t ← 2a`, and `i ← i + 1`. -/
def awLoop (f : FnCached) (xs0 descentDir : List ℚ) (fxs0 dufAtx0 : ℚ)
    (maxSteps : ℕ) (s : LSState) : LSOut :=
  if h : shouldStop maxSteps s.i s.a s.b s.t = true then ⟨s, .stopped⟩
  else
    let e := f (addv xs0 (scalev s.t descentDir))
    let isArmijo := armijo fxs0 dufAtx0 s.t e.f
    let isWolfe := weakWolfe descentDir dufAtx0 e.gradf
    if isArmijo = false then
      let b1 : Option ℚ := some s.t
      let t1 := match b1 with
        | some bv => (s.a + bv) / 2
        | none => 2 * s.a
      awLoop f xs0 descentDir fxs0 dufAtx0 maxSteps ⟨s.a, b1, t1, s.i + 1⟩
    else if isWolfe = false then
      let a1 := s.t
      let t1 := match s.b with
        | some bv => (a1 + bv) / 2
        | none => 2 * a1
      awLoop f xs0 descentDir fxs0 dufAtx0 maxSteps ⟨a1, s.b, t1, s.i + 1⟩
    else ⟨s, .accepted⟩
termination_by maxSteps + 1 - s.i
decreasing_by
  all_goals
    simp [shouldStop, intervalTooSmall] at h
    omega

/-- `awLineSearch2` including the (ghost) final loop state: compute the
descent direction `d = −gradfxs0` and the directional derivative
`⟨d, grad f(x₀)⟩`, then run the bracketing loop from
`a = 0`, `b = Infinity`, `t = 1`, `i = 0`. -/
def awLineSearchAux (f : FnCached) (xs0 gradfxs0 : List ℚ) (fxs0 : ℚ)
    (maxSteps : ℕ) : LSOut :=
  let descentDir := negv gradfxs0
  let dufAtx0 := dot descentDir (f xs0).gradf
  awLoop f xs0 descentDir fxs0 dufAtx0 maxSteps ⟨0, none, 1, 0⟩

/-- `awLineSearch2` as in the source: the most recent `t` when the loop
ends.  (The source's `maxSteps` parameter defaults to `10`; callers in
this file pass it explicitly.) -/
def awLineSearch2 (xs0 : List ℚ) (f : FnCached) (gradfxs0 : List ℚ) (fxs0 : ℚ)
    (maxSteps : ℕ) : ℚ :=
  (awLineSearchAux f xs0 gradfxs0 fxs0 maxSteps).st.t

/-! ### The L-BFGS preconditioner -/

/-- `LbfgsParams` (types/state), with the fields the optimizer uses.
Column vectors of `ml-matrix` are modelled as `List ℚ`; the possibly
`undefined` fields `lastState`/`lastGrad` are `Option`s. -/
structure LbfgsParams where
  lastState : Option (List ℚ)
  lastGrad : Option (List ℚ)
  s_list : List (List ℚ)
  y_list : List (List ℚ)
  numUnconstrSteps : ℕ
  memSize : ℕ
deriving DecidableEq

/-- Modelled from the spec: `defaultLbfgsParams` from `engine/EngineUtils`
(an external collaborator module): no stored point or gradient, empty
correction-vector lists, counter `0`, history depth `memSize = 17`. -/
def defaultLbfgsParams : LbfgsParams :=
  { lastState := none
    lastGrad := none
    s_list := []
    y_list := []
    numUnconstrSteps := 0
    memSize := 17 }

/-- `calculate_rho` of `lbfgsInner`: `ρ = 1 / (⟨y, s⟩ + EPSD)`. -/
def calculate_rho (s y : List ℚ) : ℚ := 1 / (dot y s + EPSD)

/-- `pull_q_back` of `lbfgsInner` (the backward sweep step):
`α = ρ·⟨s, q⟩`, `q ← q − α·y`, recording `α` (appended on the right, so
the recorded list runs newest to oldest). -/
def pull_q_back (acc : List ℚ × List ℚ) (curr : ℚ × List ℚ × List ℚ) :
    List ℚ × List ℚ :=
  let q_i_plus_1 := acc.1
  let alphas2 := acc.2
  let rho_i := curr.1
  let s_i := curr.2.1
  let y_i := curr.2.2
  let alpha_i := rho_i * dot s_i q_i_plus_1
  (subv q_i_plus_1 (scalev alpha_i y_i), alphas2 ++ [alpha_i])

/-- `estimate_hess` of `lbfgsInner` computes `H₀ = γ·I` with
`γ = ⟨s, y⟩ / (⟨y, y⟩ + EPSD)`; multiplying a vector by `γ·I` is scalar
multiplication by `γ`, so only `γ` is needed here. -/
def estimate_hess_gamma (y_km1 s_km1 : List ℚ) : ℚ :=
  dot s_km1 y_km1 / (dot y_km1 y_km1 + EPSD)

/-- `push_r_forward` of `lbfgsInner` (the forward sweep step):
`β = ρ·⟨y, r⟩`, `r ← r + (α − β)·s`. -/
def push_r_forward (r_i : List ℚ) (curr : (ℚ × ℚ) × (List ℚ × List ℚ)) : List ℚ :=
  let rho_i := curr.1.1
  let alpha_i := curr.1.2
  let s_i := curr.2.1
  let y_i := curr.2.2
  let beta_i := rho_i * dot y_i r_i
  addv r_i (scalev (alpha_i - beta_i) s_i)

/-- `lbfgsInner`: the two-loop recursion computing `H·grad f(x)` from the
stored `(s, y)` pairs (newest first).  The source reads `ys[0]`/`ss[0]`
unguarded; callers only reach this with nonempty lists (`memSize ≥ 1`),
and the model uses the head with default `[]`. -/
def lbfgsInner (grad_fx_k : List ℚ) (ss ys : List (List ℚ)) : List ℚ :=
  let rhos := (zip2 ss ys).map (fun p => calculate_rho p.1 p.2)
  let q_k := grad_fx_k
  let back := (zip3 rhos ss ys).foldl pull_q_back (q_k, [])
  let q_k_minus_m := back.1
  let alphas := back.2
  let gamma_k := estimate_hess_gamma (ys.headD []) (ss.headD [])
  let r_k_minus_m := scalev gamma_k q_k_minus_m
  let inputs := (zip2 (zip2 rhos alphas) (zip2 ss ys)).reverse
  inputs.foldl push_r_forward r_k_minus_m

/-- The errors the optimizer can raise (`throw Error(...)` in the source). -/
inductive OptError where
  | nanInXs : OptError
  | nanInGradfxs : OptError
  | insufficientSteps : OptError
  | invalidLbfgsState : OptError
deriving DecidableEq

/-- Result of one `lbfgs` call.  `didReset` is ghost instrumentation (not
a source field) recording whether the non-descent reset branch was taken;
it is used only to state properties. -/
structure LbfgsOut where
  gradfxsPreconditioned : List ℚ
  updatedLbfgsInfo : LbfgsParams
  didReset : Bool
deriving DecidableEq

/-- The outer L-BFGS routine `lbfgs`.  On the first call
(`numUnconstrSteps == 0`) it returns the gradient unchanged and stores
`x`, `grad f(x)`; on later calls it forms the newest correction pair,
truncates the history to `memSize`, runs `lbfgsInner`, and resets the
history if the result is not a descent direction
(`⟨−gPre, g⟩ > 0`).  An inconsistent state raises `Invalid L-BFGS state`. -/
def lbfgs (xs gradfxs : List ℚ) (lbfgsInfo : LbfgsParams) :
    Except OptError LbfgsOut :=
  if lbfgsInfo.numUnconstrSteps = 0 then
    .ok { gradfxsPreconditioned := gradfxs
          updatedLbfgsInfo :=
            { lbfgsInfo with
              lastState := some xs
              lastGrad := some gradfxs
              s_list := []
              y_list := []
              numUnconstrSteps := 1 }
          didReset := false }
  else
    match lbfgsInfo.lastState, lbfgsInfo.lastGrad with
    | some x_km1, some grad_fx_km1 =>
      let x_k := xs
      let grad_fx_k := gradfxs
      let km1 := lbfgsInfo.numUnconstrSteps
      let ss_km2 := lbfgsInfo.s_list
      let ys_km2 := lbfgsInfo.y_list
      let s_km1 := subv x_k x_km1
      let y_km1 := subv grad_fx_k grad_fx_km1
      let ss_km1 := (s_km1 :: ss_km2).take lbfgsInfo.memSize
      let ys_km1 := (y_km1 :: ys_km2).take lbfgsInfo.memSize
      let gradPreconditioned := lbfgsInner grad_fx_k ss_km1 ys_km1
      let descentDirCheck := -1 * dot gradPreconditioned grad_fx_k
      if descentDirCheck > 0 then
        .ok { gradfxsPreconditioned := gradfxs
              updatedLbfgsInfo :=
                { lbfgsInfo with
                  lastState := some x_k
                  lastGrad := some grad_fx_k
                  s_list := []
                  y_list := []
                  numUnconstrSteps := 1 }
              didReset := true }
      else
        .ok { gradfxsPreconditioned := gradPreconditioned
              updatedLbfgsInfo :=
                { lbfgsInfo with
                  lastState := some x_k
                  lastGrad := some grad_fx_k
                  s_list := ss_km1
                  y_list := ys_km1
                  numUnconstrSteps := km1 + 1 }
              didReset := false }
    | _, _ => .error .invalidLbfgsState

/-! ### The inner minimizer `minimize` -/

/-- The gradient-descent position update of `minimize`:
`xs.map((x, j) => x - t * gradfxsPreconditioned[j])`. -/
def gdUpdate (xs : List ℚ) (t : ℚ) (gradfxsPreconditioned : List ℚ) : List ℚ :=
  List.zipWith (fun x g => x - t * g) xs gradfxsPreconditioned

/-- The mutable variables of `minimize`'s loop.  `prevXs` is ghost
instrumentation (not a source variable): the value of `xs` at which the
current `fxs`/`gradfxs` were evaluated, i.e. the iterate before the most
recent position update. -/
structure OptLoopState where
  xs : List ℚ
  prevXs : List ℚ
  fxs : ℚ
  gradfxs : List ℚ
  gradientPreconditioned : List ℚ
  normGradfxs : ℚ
  i : ℕ
  t : ℚ
  failed : Bool
  objEngs : List ℚ
  constrEngs : List ℚ
  newLbfgsInfo : LbfgsParams
deriving DecidableEq

/-- How `minimize`'s loop ended: by exhausting `numSteps`, or by the
early-convergence `break`.  Ghost instrumentation used only to state
properties.  (The NaN-failure `break` cannot fire in the model: `ℚ`
is the NaN-free fragment of the JavaScript numbers, see below.) -/
inductive MinExit where
  | exhausted : MinExit
  | convergedEarly : MinExit
deriving DecidableEq

/-- Final loop state plus (ghost) exit kind of `minimize`'s loop. -/
structure MinOut where
  st : OptLoopState
  exit : MinExit
deriving DecidableEq

/-- The loop of `minimize` (`while (i < numSteps)`).  One iteration:
check `xs` for NaN (the source's `containsNaN` is identically `false`,
see `containsNaN`, so this check never fires and is omitted); evaluate
the oracle; check the gradient for NaN (likewise never fires); call
`lbfgs`; compute `normGradfxs = ⟨gradfxs, gPre⟩`; `break` on early
convergence (`BREAK_EARLY = true` in the source); run the line search
(`USE_LINE_SEARCH = true`, with the default `maxSteps = 10`); test
`Number.isNaN(fxs) || Number.isNaN(normGrad)` — always false on `ℚ`, so
`failed` is never set; update `xs` and `i`. -/
def minimizeLoop (f : FnCached) (numSteps : ℕ) (s : OptLoopState) :
    Except OptError MinOut :=
  if _h : s.i < numSteps then
    let e := f s.xs
    match lbfgs s.xs e.gradf s.newLbfgsInfo with
    | .error err => .error err
    | .ok lr =>
      let normGradfxs := dot e.gradf lr.gradfxsPreconditioned
      if unconstrainedConverged2 normGradfxs then
        .ok { st :=
                { s with
                  fxs := e.f
                  gradfxs := e.gradf
                  gradientPreconditioned := lr.gradfxsPreconditioned
                  normGradfxs := normGradfxs
                  objEngs := e.objEngs
                  constrEngs := e.constrEngs
                  newLbfgsInfo := lr.updatedLbfgsInfo }
              exit := .convergedEarly }
      else
        let t := awLineSearch2 s.xs f lr.gradfxsPreconditioned e.f 10
        let xs1 := gdUpdate s.xs t lr.gradfxsPreconditioned
        minimizeLoop f numSteps
          { xs := xs1
            prevXs := s.xs
            fxs := e.f
            gradfxs := e.gradf
            gradientPreconditioned := lr.gradfxsPreconditioned
            normGradfxs := normGradfxs
            i := s.i + 1
            t := t
            failed := false
            objEngs := e.objEngs
            constrEngs := e.constrEngs
            newLbfgsInfo := lr.updatedLbfgsInfo }
  else .ok { st := s, exit := .exhausted }
termination_by numSteps - s.i

/-- `minimize`: raise an error unless `numSteps ≥ 1` (`MIN_STEPS = 1`),
then run the loop from the initial variable values of the source
(`fxs = 0`, zero gradients, `i = 0`, `t = 0.0001`, `failed = false`,
empty per-term energies, a copy of the given `lbfgsInfo`). -/
def minimize (xs0 : List ℚ) (f : FnCached) (lbfgsInfo : LbfgsParams)
    (numSteps : ℤ) : Except OptError MinOut :=
  if numSteps < 1 then .error .insufficientSteps
  else
    minimizeLoop f numSteps.toNat
      { xs := xs0
        prevXs := xs0
        fxs := 0
        gradfxs := List.replicate xs0.length 0
        gradientPreconditioned := List.replicate xs0.length 0
        normGradfxs := 0
        i := 0
        t := 1 / 10000
        failed := false
        objEngs := []
        constrEngs := []
        newLbfgsInfo := lbfgsInfo }

/-! ### The problem builder and the scalarized energy -/

/-- Whether a parameter is optimized or held constant.  `InputMeta` comes
from `shapes/Samplers` (an external collaborator); the optimizer only
looks at whether `tag === "Optimized"`. -/
inductive Tag where
  | Optimized : Tag
  | Pending : Tag
deriving DecidableEq

/-- `InputMeta`: the per-parameter metadata record, of which the
optimizer uses only `tag`. -/
structure InputMeta where
  tag : Tag
deriving DecidableEq

/-- Output of the compiled graph evaluator `f = genCode(explicitGraph)`
(the graph compiler is an external collaborator): the primary (energy)
value, a gradient array that may have holes (`!(i in gradient)` is
modelled by `none`), and the secondary per-term outputs. -/
structure CompiledOut where
  primary : ℚ
  gradient : ℕ → Option ℚ
  secondary : List ℚ

/-- `penalty(v) = max(v, 0)²`.  Modelled from the spec: `fns.toPenalty`
comes from `engine/Autodiff`, an external collaborator; the spec defines
it as the squared positive part. -/
def toPenalty (v : ℚ) : ℚ := max v 0 ^ 2

/-- `evalEnergyOnCustom`, evaluated denotationally: the graph constructors
`ops.vsum`, `add`, `mul` (external collaborators) are modelled by rational
sum, addition and multiplication.  The overall energy is
`objEng + constrEng·(constraintWeight·epWeight)` where
`objEng = Σ objEngs` and `constrEng = Σ penalty(constrEngs)`. -/
def evalEnergyOnCustom (epWeightNode : ℚ) (objEngs constrEngs : List ℚ) : ℚ :=
  let constrWeightNode := constraintWeight
  let objEng := objEngs.sum
  let constrEng := (constrEngs.map toPenalty).sum
  objEng + constrEng * (constrWeightNode * epWeightNode)

/-- The `objectiveAndGradient` closure built by `genOptProblem`: evaluate
the compiled function at `[...xs, epWeight]`, return the primary value,
the gradient masked so that a hole, a non-`Optimized` input, an absent
frozen set (`frozenValues` falsy) or a frozen index yields `0`, and the
secondary outputs split into objective and constraint energies at
`nObj = objEngs.length`. -/
def mkObjectiveAndGradient (inputs : List InputMeta) (nObj : ℕ)
    (fcomp : List ℚ → CompiledOut) (epWeight : ℚ)
    (frozenValues : Option (List ℕ)) : FnCached := fun xs =>
  let out := fcomp (xs ++ [epWeight])
  { f := out.primary
    gradf := (List.range xs.length).map (fun i =>
      match out.gradient i with
      | none => 0
      | some gi =>
        if (inputs.getD i { tag := Tag.Pending }).tag = Tag.Optimized then
          match frozenValues with
          | some fz => if i ∈ fz then 0 else gi
          | none => 0
        else 0)
    objEngs := out.secondary.take nObj
    constrEngs := out.secondary.drop nObj }

/-! ### The optimizer state machine -/

/-- `OptStatus`. -/
inductive OptStatus where
  | NewIter : OptStatus
  | UnconstrainedRunning : OptStatus
  | UnconstrainedConverged : OptStatus
  | EPConverged : OptStatus
  | Error : OptStatus
deriving DecidableEq

/-- `Params` (types/state), with the fields the optimizer reads or
writes.  `objectiveAndGradient` is the oracle factory
`(epWeight, frozenValues) → FnCached`; fields the builder leaves
`undefined` are `Option`s.  (The source's `energyGraph` field, a graph
handle never consulted by the optimizer, is omitted.) -/
structure Params where
  lastGradient : List ℚ
  lastGradientPreconditioned : List ℚ
  objectiveAndGradient : ℚ → Option (List ℕ) → FnCached
  currObjectiveAndGradient : FnCached
  weight : ℚ
  UOround : ℤ
  EPround : ℤ
  optStatus : OptStatus
  lbfgsInfo : LbfgsParams
  lastUOstate : Option (List ℚ)
  lastUOenergy : Option ℚ
  lastEPstate : Option (List ℚ)
  lastEPenergy : Option ℚ
  lastObjEnergies : Option (List ℚ)
  lastConstrEnergies : Option (List ℚ)

/-- `State`, with the fields the optimizer uses: the parameter vector,
the frozen index set, and the optimization parameters. -/
structure State where
  varyingValues : List ℚ
  frozenValues : List ℕ
  params : Params

/-- `genOptProblem`: build the initial `Params`.  The graph construction
and compilation (`makeGraph`, `genCode`) are external collaborators;
`fcomp` stands for the compiled evaluator and `nObj` for
`objEngs.length`.  Note the initial status is `UnconstrainedRunning` and
the initial oracle is bound with `new Set()` — an **empty** frozen set —
not with the state's `frozenValues`. -/
def genOptProblem (inputs : List InputMeta) (nObj : ℕ)
    (fcomp : List ℚ → CompiledOut) : Params :=
  let weight := initConstraintWeight
  let objectiveAndGradient := fun (epWeight : ℚ) (frozenValues : Option (List ℕ)) =>
    mkObjectiveAndGradient inputs nObj fcomp epWeight frozenValues
  { lastGradient := List.replicate inputs.length 0
    lastGradientPreconditioned := List.replicate inputs.length 0
    objectiveAndGradient := objectiveAndGradient
    currObjectiveAndGradient := objectiveAndGradient weight (some [])
    weight := weight
    UOround := 0
    EPround := 0
    optStatus := .UnconstrainedRunning
    lbfgsInfo := defaultLbfgsParams
    lastUOstate := none
    lastUOenergy := none
    lastEPstate := none
    lastEPenergy := none
    lastObjEnergies := none
    lastConstrEnergies := none }

/-- The exterior-point driver `step`, dispatching on `optStatus`.
The non-null assertions `lastEPstate!` etc. of the
`UnconstrainedConverged` branch are modelled with `Option.getD` (they are
guarded by `EPround > 1`, which ensures the snapshots were taken).  In
the `UnconstrainedRunning` branch a failed `minimize` result keeps the
old `varyingValues` (the source returns `{ ...state, params }` there),
while the normal path installs the new ones. -/
def step (state : State) (steps : ℤ) : Except OptError State :=
  let optParams := state.params
  let frozenValues := state.frozenValues
  let weight := optParams.weight
  let xs := state.varyingValues
  match optParams.optStatus with
  | .NewIter =>
    .ok { state with
          params :=
            { optParams with
              currObjectiveAndGradient :=
                optParams.objectiveAndGradient initConstraintWeight
                  (some frozenValues)
              weight := initConstraintWeight
              UOround := 0
              EPround := 0
              optStatus := .UnconstrainedRunning
              lbfgsInfo := defaultLbfgsParams } }
  | .UnconstrainedRunning =>
    match minimize xs optParams.currObjectiveAndGradient optParams.lbfgsInfo
        steps with
    | .error err => .error err
    | .ok res =>
      let xs1 := res.st.xs
      let p1 :=
        { optParams with
          lastUOstate := some xs1
          lastUOenergy := some res.st.fxs
          UOround := optParams.UOround + 1
          lbfgsInfo := res.st.newLbfgsInfo
          lastGradient := res.st.gradfxs
          lastGradientPreconditioned := res.st.gradientPreconditioned
          lastConstrEnergies := some res.st.constrEngs
          lastObjEnergies := some res.st.objEngs }
      let p2 :=
        if unconstrainedConverged2 res.st.normGradfxs then
          { p1 with
            optStatus := .UnconstrainedConverged
            lbfgsInfo := defaultLbfgsParams }
        else { p1 with optStatus := .UnconstrainedRunning }
      if res.st.failed then
        .ok { state with params := { p2 with optStatus := .Error } }
      else .ok { state with varyingValues := xs1, params := p2 }
  | .UnconstrainedConverged =>
    let p1 :=
      if optParams.EPround > 1 ∧
          epConverged2 (optParams.lastEPstate.getD [])
            (optParams.lastUOstate.getD []) (optParams.lastEPenergy.getD 0)
            (optParams.lastUOenergy.getD 0) = true then
        { optParams with optStatus := .EPConverged }
      else
        { optParams with
          optStatus := .UnconstrainedRunning
          weight := weightGrowthFactor * weight
          EPround := optParams.EPround + 1
          UOround := 0
          currObjectiveAndGradient :=
            optParams.objectiveAndGradient (weightGrowthFactor * weight)
              (some frozenValues) }
    .ok { state with
          varyingValues := xs
          params :=
            { p1 with
              lastEPstate := p1.lastUOstate
              lastEPenergy := p1.lastUOenergy } }
  | .EPConverged => .ok state
  | .Error => .ok state

/-! ### Shared concrete objects for the theorems -/

/-- A trivial oracle used for concrete states in the theorems below. -/
def fTriv : FnCached := fun _ => { f := 0, gradf := [], objEngs := [], constrEngs := [] }

/-- A concrete terminal (`EPConverged`) optimizer state. -/
def sEPc : State :=
  { varyingValues := [1, 2]
    frozenValues := []
    params :=
      { lastGradient := [0, 0]
        lastGradientPreconditioned := [0, 0]
        objectiveAndGradient := fun _ _ => fTriv
        currObjectiveAndGradient := fTriv
        weight := 1
        UOround := 0
        EPround := 0
        optStatus := .EPConverged
        lbfgsInfo := defaultLbfgsParams
        lastUOstate := none
        lastUOenergy := none
        lastEPstate := none
        lastEPenergy := none
        lastObjEnergies := none
        lastConstrEnergies := none } }

/-- A concrete `UnconstrainedRunning` state (otherwise as `sEPc`). -/
def sURc : State :=
  { sEPc with params := { sEPc.params with optStatus := .UnconstrainedRunning } }

/-! ### C2: the NaN check in `minimize` -/

/-- C2: the claim states that `minimize` raises the NaN-in-state error as
soon as `xs` contains NaN.  This is the documented intent, but the code's
`containsNaN` iterates the array's *keys* (`for...in`), and
`Number.isNaN` is false on every such index string, so `containsNaN`
returns `false` on every input — in particular on a list containing NaN,
which the value-wise detector the spec describes does flag.  The guard
`if (containsNaN(xs)) throw ...` in `minimize` therefore never fires. -/
theorem containsNaN_never_fires :
    (∀ xs : List JSNum, containsNaN xs = false) ∧
    containsNaN [JSNum.nan] = false ∧
    containsNaNSpec [JSNum.nan] = true := by
  refine ⟨?_, rfl, rfl⟩
  intro xs
  simp [containsNaN, forInKeys, numberIsNaN, List.any_map, Function.comp]

/-! ### C3: the scalarized energy -/

/-- C3 counterexample: at `w = 1`, no objectives, a single constraint
energy `1`, the builder's energy is `10⁵` while the claimed formula with
`c₀ = 10⁴` gives `10⁴`; the source literal `10e4` is `10⁵`, not `10⁴`. -/
theorem C3_counterexample :
    ¬ (evalEnergyOnCustom 1 [] [1] =
        ([] : List ℚ).sum + 10 ^ 4 * 1 * ([(1 : ℚ)].map toPenalty).sum) := by
  norm_num [evalEnergyOnCustom, toPenalty, constraintWeight, max_def]

/-- C3 (corrected): the oracle energy built by the problem builder is
`ϕ(x; w) = Σⱼ oⱼ(x) + c₀·w·Σᵢ max(cᵢ(x), 0)²` with the fixed multiplier
`c₀ = 10⁵` (the source's `10e4`), not `10⁴`. -/
theorem C3_amended (w : ℚ) (objEngs constrEngs : List ℚ) :
    evalEnergyOnCustom w objEngs constrEngs =
      objEngs.sum + 10 ^ 5 * w * (constrEngs.map toPenalty).sum ∧
    constraintWeight = 10 ^ 5 := by
  constructor
  · simp only [evalEnergyOnCustom, constraintWeight]
    ring
  · norm_num [constraintWeight]

/-! ### C4: `steps < 1` handling -/

/-- C4 counterexample: `step` on an `EPConverged` state with a step
budget of `0 < 1` returns the state unchanged instead of failing: only
the `UnconstrainedRunning` branch ever invokes `minimize`, which hosts
the `steps ≥ 1` guard. -/
theorem C4_counterexample :
    (0 : ℤ) < 1 ∧ step sEPc 0 = Except.ok sEPc :=
  ⟨by norm_num, rfl⟩

/-- C4 (corrected): for `steps < 1`, `step` fails loudly (with the
insufficient-steps error raised by `minimize`) exactly when the state's
`optStatus` is `UnconstrainedRunning`; for every other status `step`
returns a state normally, regardless of the step budget. -/
theorem C4_amended (s : State) (steps : ℤ) (h : steps < 1) :
    (s.params.optStatus = .UnconstrainedRunning →
      step s steps = .error .insufficientSteps) ∧
    (s.params.optStatus ≠ .UnconstrainedRunning →
      ∃ s1, step s steps = .ok s1) := by
  constructor
  · intro hs
    simp only [step, hs]
    simp [minimize, h]
  · intro hs
    cases hstat : s.params.optStatus with
    | NewIter =>
      simp only [step, hstat]
      exact ⟨_, rfl⟩
    | UnconstrainedRunning => exact absurd hstat hs
    | UnconstrainedConverged =>
      simp only [step, hstat]
      exact ⟨_, rfl⟩
    | EPConverged =>
      simp only [step, hstat]
      exact ⟨_, rfl⟩
    | Error =>
      simp only [step, hstat]
      exact ⟨_, rfl⟩

/-- C4 witness: on a concrete `UnconstrainedRunning` state with
`steps = 0`, `step` raises the insufficient-steps error. -/
theorem C4_witness : step sURc 0 = .error .insufficientSteps :=
  (C4_amended sURc 0 (by norm_num)).1 rfl

/-! ### C7: terminal stickiness -/

/-- C7: for a state whose status is `EPConverged` or `Error`, `step`
returns it unchanged, so `step(step(s, k), k')` equals `step(s, k)` for
all step budgets: both terminal statuses are sticky. -/
theorem C7_terminal_sticky (s : State) (k k1 : ℤ)
    (hs : s.params.optStatus = .EPConverged ∨ s.params.optStatus = .Error)
    (_hk : 1 ≤ k) (_hk1 : 1 ≤ k1) :
    (step s k).bind (fun s1 => step s1 k1) = step s k := by
  have h1 : step s k = .ok s := by
    rcases hs with h | h <;> simp only [step, h]
  have h2 : step s k1 = .ok s := by
    rcases hs with h | h <;> simp only [step, h]
  rw [h1]
  exact h2

/-- C7 witness: concrete terminal state, `k = k' = 1`. -/
theorem C7_witness :
    (step sEPc 1).bind (fun s1 => step s1 1) = step sEPc 1 :=
  C7_terminal_sticky sEPc 1 1 (Or.inl rfl) (by norm_num) (by norm_num)

/-! ### C5: the descent guarantee of `lbfgs` -/

/-- the inner product of a vector with itself is nonnegative. -/
theorem dot_self_nonneg (v : List ℚ) : 0 ≤ dot v v := by
  induction v with
  | nil => simp [dot]
  | cons x t ih =>
    simp only [dot, List.zipWith_cons_cons, List.sum_cons] at *
    nlinarith [mul_self_nonneg x]

/-- C5 counterexample: the initial `lbfgs` call at a zero gradient
returns `gPre = g = 0` without resetting, and `⟨gPre, g⟩ = 0` is not
positive: the claimed strict inequality fails. -/
theorem C5_counterexample :
    (lbfgs [1] [0] defaultLbfgsParams).toOption.map
        (fun r => (r.gradfxsPreconditioned, r.didReset)) =
      some ([0], false) ∧
    ¬ (0 < dot [(0 : ℚ)] [0]) := by
  constructor
  · rfl
  · norm_num [dot]

/-- C5 (corrected): whenever `lbfgs` returns a preconditioned gradient
without performing a history reset — including the initial call with
`numUnconstrSteps == 0` — the result satisfies `⟨gPre, g⟩ ≥ 0`; the
strict inequality `⟨gPre, g⟩ > 0` can fail (e.g. at a zero gradient). -/
theorem C5_amended (xs gradfxs : List ℚ) (info : LbfgsParams) (r : LbfgsOut)
    (h : lbfgs xs gradfxs info = .ok r) (hnr : r.didReset = false) :
    0 ≤ dot r.gradfxsPreconditioned gradfxs := by
  unfold lbfgs at h
  split at h
  · cases h
    exact dot_self_nonneg gradfxs
  · split at h
    · dsimp only at h
      split at h
      · cases h
        simp at hnr
      · rename_i hcheck
        cases h
        dsimp only
        linarith
    · cases h

/-- The result of the initial `lbfgs` call at `xs = [1]`, `g = [2]`. -/
def lbfgsW : LbfgsOut :=
  { gradfxsPreconditioned := [2]
    updatedLbfgsInfo :=
      { defaultLbfgsParams with
        lastState := some [1]
        lastGrad := some [2]
        s_list := []
        y_list := []
        numUnconstrSteps := 1 }
    didReset := false }

/-- C5 witness: the initial call at `xs = [1]`, `g = [2]` returns without
reset and satisfies the corrected inequality. -/
theorem C5_witness : 0 ≤ dot lbfgsW.gradfxsPreconditioned [2] :=
  C5_amended [1] [2] defaultLbfgsParams lbfgsW rfl rfl

/-! ### C9: the line-search stopping rule -/

/-- C9 counterexample: with bracket `[0, 5·10⁻¹⁰]` the loop's stop check
fires (since the source's `minInterval` is `10e-10 = 10⁻⁹`), although
neither of the claim's conditions holds: the bracket is not below the
claimed `minInterval = 10⁻¹⁰` and the iteration count does not exceed
`maxSteps`. -/
theorem C9_counterexample :
    shouldStop 10 0 0 (some (1 / 2000000000)) 7 = true ∧
    ¬ (|(1 : ℚ) / 2000000000 - 0| < 1 / 10000000000) ∧
    ¬ ((0 : ℕ) > 10) := by
  refine ⟨?_, ?_, by norm_num⟩
  · norm_num [shouldStop, intervalTooSmall, minInterval, abs_of_pos]
  · rw [sub_zero, abs_of_pos (by norm_num)]
    norm_num

/-- C9 (corrected): the bracket loop stops as soon as
`|b − a| < minInterval` with `minInterval = 10⁻⁹` (the source's
`10e-10`), or as soon as the iteration count exceeds `maxSteps`, and it
then returns the most recent `t` unchanged. -/
theorem C9_amended (f : FnCached) (xs0 d : List ℚ) (fxs0 duf : ℚ)
    (maxSteps i : ℕ) (a t bq : ℚ) :
    minInterval = 1 / 1000000000 ∧
    (shouldStop maxSteps i a (some bq) t = true ↔
      (|bq - a| < 1 / 1000000000 ∨ i > maxSteps)) ∧
    (shouldStop maxSteps i a (some bq) t = true →
      awLoop f xs0 d fxs0 duf maxSteps ⟨a, some bq, t, i⟩ =
        ⟨⟨a, some bq, t, i⟩, .stopped⟩) := by
  refine ⟨by norm_num [minInterval], ?_, ?_⟩
  · norm_num [shouldStop, intervalTooSmall, minInterval]
  · intro h
    rw [awLoop]
    simp [h]

/-- C9 witness: a concrete stopped loop state with bracket width
`5·10⁻¹⁰` returns its `t = 7` unchanged. -/
theorem C9_witness :
    awLoop fTriv [] [] 0 0 10 ⟨0, some (1 / 2000000000), 7, 0⟩ =
      ⟨⟨0, some (1 / 2000000000), 7, 0⟩, .stopped⟩ :=
  (C9_amended fTriv [] [] 0 0 10 0 0 7 (1 / 2000000000)).2.2
    (by norm_num [shouldStop, intervalTooSmall, minInterval, abs_of_pos])

/-! ### C8: the L-BFGS history invariant -/

/-- The L-BFGS history invariant: the two correction-vector lists have
equal length bounded by `memSize`, and a zero step counter means both
lists are empty. -/
def lbfgsInv (l : LbfgsParams) : Prop :=
  (l.s_list.length = l.y_list.length ∧ l.s_list.length ≤ l.memSize) ∧
  (l.numUnconstrSteps = 0 → l.s_list = [] ∧ l.y_list = [])

/-- `defaultLbfgsParams` satisfies the history invariant (in particular
the problem builder's initial state does: its `lbfgsInfo` is exactly
`defaultLbfgsParams`). -/
theorem lbfgsInv_default : lbfgsInv defaultLbfgsParams :=
  ⟨⟨rfl, Nat.zero_le _⟩, fun _ => ⟨rfl, rfl⟩⟩

/-- Every successful `lbfgs` call preserves the history invariant (only
the equal-length part of the input invariant is needed). -/
theorem lbfgs_inv (xs gradfxs : List ℚ) (info : LbfgsParams) (r : LbfgsOut)
    (hlen : info.s_list.length = info.y_list.length)
    (h : lbfgs xs gradfxs info = .ok r) :
    lbfgsInv r.updatedLbfgsInfo := by
  unfold lbfgs at h
  split at h
  · cases h
    exact ⟨⟨rfl, Nat.zero_le _⟩, fun h0 => by simp at h0⟩
  · split at h
    · dsimp only at h
      split at h
      · cases h
        exact ⟨⟨rfl, Nat.zero_le _⟩, fun h0 => by simp at h0⟩
      · cases h
        refine ⟨⟨?_, ?_⟩, fun h0 => by simp at h0⟩
        · simp [List.length_take, hlen]
        · simp only [List.length_take]
          omega
    · cases h

/-- `minimize`'s loop preserves the history invariant: each iteration
replaces `newLbfgsInfo` by an `lbfgs` output. -/
theorem minimizeLoop_inv (f : FnCached) (numSteps : ℕ) (s : OptLoopState)
    (hInv : lbfgsInv s.newLbfgsInfo) (r : MinOut)
    (h : minimizeLoop f numSteps s = .ok r) :
    lbfgsInv r.st.newLbfgsInfo := by
  rw [minimizeLoop] at h
  split at h
  · rename_i hlt
    try dsimp only at h
    split at h
    · cases h
    · rename_i lr hlb
      try dsimp only at h
      split at h
      · cases h
        exact lbfgs_inv _ _ _ _ hInv.1.1 hlb
      · exact minimizeLoop_inv f numSteps _
          (lbfgs_inv _ _ _ _ hInv.1.1 hlb) r h
  · cases h
    exact hInv
termination_by numSteps - s.i
decreasing_by all_goals (simp_wf; omega)

/-- C8: if the incoming state's L-BFGS history satisfies the invariant
(as the builder's initial state does), then after any `step` call the
history of the returned state again satisfies
`|sList| == |yList| ≤ memSize`, with empty lists whenever
`numUnconstrSteps == 0`; and the builder's initial history
(`defaultLbfgsParams`) satisfies it. -/
theorem C8_history_bound (s : State) (steps : ℤ) (s1 : State)
    (hInv : lbfgsInv s.params.lbfgsInfo)
    (h : step s steps = .ok s1) :
    lbfgsInv s1.params.lbfgsInfo ∧ lbfgsInv defaultLbfgsParams := by
  refine ⟨?_, lbfgsInv_default⟩
  simp only [step] at h
  split at h
  · -- NewIter
    cases h
    exact lbfgsInv_default
  · -- UnconstrainedRunning
    try dsimp only at h
    split at h
    · cases h
    · rename_i res hmin
      have hres : lbfgsInv res.st.newLbfgsInfo := by
        unfold minimize at hmin
        split at hmin
        · cases hmin
        · exact minimizeLoop_inv _ _ _ hInv _ hmin
      try dsimp only at h
      split at h
      · cases h
        try dsimp only
        split
        · exact lbfgsInv_default
        · exact hres
      · cases h
        try dsimp only
        split
        · exact lbfgsInv_default
        · exact hres
  · -- UnconstrainedConverged
    cases h
    try dsimp only
    split
    · exact hInv
    · exact hInv
  · -- EPConverged
    cases h
    exact hInv
  · -- Error
    cases h
    exact hInv

/-- C8 witness: one `step` on a concrete terminal state with the default
history. -/
theorem C8_witness :
    lbfgsInv sEPc.params.lbfgsInfo ∧ lbfgsInv defaultLbfgsParams :=
  C8_history_bound sEPc 1 sEPc lbfgsInv_default rfl

/-! ### C10: the returned energy lags the returned iterate -/

/-- The energy-lag loop invariant of `minimize`: once at least one
iteration has run, the current `fxs` was evaluated at `prevXs`, and `xs`
is the gradient-descent update of `prevXs`. -/
def energyLagInv (f : FnCached) (s : OptLoopState) : Prop :=
  s.i = 0 ∨
    (s.fxs = (f s.prevXs).f ∧
      s.xs = gdUpdate s.prevXs s.t s.gradientPreconditioned)

/-- `minimize`'s loop maintains the energy-lag invariant, and an
`exhausted` exit means the final iteration counter reached `numSteps`. -/
theorem minimizeLoop_energyLag (f : FnCached) (numSteps : ℕ)
    (s : OptLoopState) (hs : energyLagInv f s) (r : MinOut)
    (h : minimizeLoop f numSteps s = .ok r) (hex : r.exit = .exhausted) :
    numSteps ≤ r.st.i ∧ energyLagInv f r.st := by
  rw [minimizeLoop] at h
  split at h
  · rename_i hlt
    try dsimp only at h
    split at h
    · cases h
    · try dsimp only at h
      split at h
      · cases h
        simp at hex
      · exact minimizeLoop_energyLag f numSteps _ (Or.inr ⟨rfl, rfl⟩) r h hex
  · cases h
    rename_i hnot
    refine ⟨?_, hs⟩
    show numSteps ≤ s.i
    omega
termination_by numSteps - s.i
decreasing_by all_goals (simp_wf; omega)

/-- C10: when `minimize` exits its loop by exhausting `numSteps` (no
early-convergence `break` and no failure), the returned `energyVal` is
the oracle's energy at the iterate *before* the final position update,
and the returned `xs` is that iterate's gradient-descent update — the
returned `xs` is never re-evaluated. -/
theorem C10_energy_lag (xs0 : List ℚ) (f : FnCached) (info : LbfgsParams)
    (numSteps : ℤ) (r : MinOut) (h : minimize xs0 f info numSteps = .ok r)
    (hex : r.exit = .exhausted) :
    r.st.fxs = (f r.st.prevXs).f ∧
    r.st.xs = gdUpdate r.st.prevXs r.st.t r.st.gradientPreconditioned := by
  unfold minimize at h
  split at h
  · cases h
  · rename_i hge
    have hrun := minimizeLoop_energyLag f numSteps.toNat _ (Or.inl rfl) r h hex
    rcases hrun with ⟨hi, hinv⟩
    rcases hinv with h0 | hok
    · exfalso
      omega
    · exact hok

/-! ### C6: line-search sufficient decrease -/

/-- Exit characterization of the line-search loop: a `stopped` exit means
the stop check held at the final state, and an `accepted` exit means the
Armijo test held at the accepted `t`. -/
theorem awLoop_spec (f : FnCached) (xs0 d : List ℚ) (fxs0 duf : ℚ)
    (m : ℕ) (s : LSState) (r : LSOut) (h : awLoop f xs0 d fxs0 duf m s = r) :
    (r.exit = .stopped →
      shouldStop m r.st.i r.st.a r.st.b r.st.t = true) ∧
    (r.exit = .accepted →
      armijo fxs0 duf r.st.t (f (addv xs0 (scalev r.st.t d))).f = true) := by
  rw [awLoop] at h
  split at h
  · rename_i hstop
    cases h
    exact ⟨fun _ => hstop, fun hx => by simp at hx⟩
  · rename_i hstop
    have hle : s.i ≤ m := by
      simp only [shouldStop, intervalTooSmall, Bool.or_eq_true,
        decide_eq_true_eq] at hstop
      omega
    dsimp only at h
    split at h
    · exact awLoop_spec f xs0 d fxs0 duf m _ r h
    · split at h
      · exact awLoop_spec f xs0 d fxs0 duf m _ r h
      · rename_i harm hwolfe
        cases h
        refine ⟨fun hx => by simp at hx, fun _ => ?_⟩
        simpa using harm
termination_by m + 1 - s.i
decreasing_by all_goals (simp_wf; omega)

/-- The Armijo sufficient-decrease inequality at step length `t`, with
descent direction `d = −gradfxs0` and `g₀ = grad f(x₀)` as the line
search evaluates it. -/
def armijoCond (f : FnCached) (xs0 gradfxs0 : List ℚ) (fxs0 t : ℚ) : Prop :=
  (f (addv xs0 (scalev t (negv gradfxs0)))).f ≤
    fxs0 + c1 * t * dot (negv gradfxs0) (f xs0).gradf

/-- C6 (corrected): after the line search returns, either the iteration
count exceeded `maxSteps`, or the bracket had shrunk below `minInterval`,
or the Armijo sufficient-decrease inequality holds at the returned `t`.
(The claim omits the bracket-collapse case, which is reachable for large
enough `maxSteps`.) -/
theorem C6_amended (f : FnCached) (xs0 gradfxs0 : List ℚ) (fxs0 : ℚ)
    (maxSteps : ℕ) (r : LSOut)
    (h : awLineSearchAux f xs0 gradfxs0 fxs0 maxSteps = r) :
    maxSteps < r.st.i ∨ intervalTooSmall r.st.a r.st.b = true ∨
      armijoCond f xs0 gradfxs0 fxs0 r.st.t := by
  simp only [awLineSearchAux] at h
  have hspec := awLoop_spec f xs0 (negv gradfxs0) fxs0
    (dot (negv gradfxs0) (f xs0).gradf) maxSteps ⟨0, none, 1, 0⟩ r h
  cases hex : r.exit with
  | stopped =>
    have hss := hspec.1 hex
    simp only [shouldStop, Bool.or_eq_true, decide_eq_true_eq] at hss
    rcases hss with hss | hss
    · exact Or.inr (Or.inl hss)
    · exact Or.inl hss
  | accepted =>
    have harm := hspec.2 hex
    refine Or.inr (Or.inr ?_)
    simpa [armijo, armijoCond, decide_eq_true_eq] using harm

/-- An oracle on which the Armijo test always fails (constant value `1`
against `fxs0 = 0`, constant gradient `[1]`). -/
def fC6 : FnCached := fun _ => { f := 1, gradf := [1], objEngs := [], constrEngs := [] }

/-- An oracle on which the very first line-search trial is accepted. -/
def fGood : FnCached := fun _ => { f := -1000, gradf := [0], objEngs := [], constrEngs := [] }

/-- C6 witness: on `fGood` the loop accepts `t = 1` at once, and the
corrected disjunction holds there. -/
theorem C6_witness :
    10 < 0 ∨ intervalTooSmall 0 none = true ∨ armijoCond fGood [0] [1] 0 1 := by
  have h : awLineSearchAux fGood [0] [1] 0 10 = ⟨⟨0, none, 1, 0⟩, .accepted⟩ := by
    unfold awLineSearchAux
    rw [awLoop]
    norm_num [fGood, shouldStop, intervalTooSmall, armijo, weakWolfe, negv,
      dot, addv, scalev, c1, c2]
  exact C6_amended fGood [0] [1] 0 10 _ h

/-- The line search on `fC6` from `x₀ = [0]`, `g = [1]`, `ϕ₀ = 0` with
`maxSteps = 40`: Armijo fails at every trial, so the bracket becomes
`[0, 1]` and then halves, and the stop check fires at `i = 31` with
`b = 2⁻³⁰ < 10⁻⁹` — well before the iteration cap. -/
theorem lineSearchC6 :
    awLineSearchAux fC6 [0] [1] 0 40 =
      ⟨⟨0, some (1 / 1073741824), 1 / 2147483648, 31⟩, .stopped⟩ := by
  simp only [awLineSearchAux]
  norm_num [fC6, negv, dot, List.zipWith_cons_cons, List.zipWith_nil_right,
    List.zipWith_nil_left, List.sum_cons, List.sum_nil]
  repeat
    rw [awLoop]
    norm_num [fC6, shouldStop, intervalTooSmall, minInterval, armijo,
      weakWolfe, addv, scalev, negv, dot, c1, c2, abs_of_pos,
      List.zipWith_cons_cons, List.zipWith_nil_right, List.zipWith_nil_left,
      List.sum_cons, List.sum_nil, List.map_cons, List.map_nil]

/-- C6 counterexample: on `fC6` with `maxSteps = 40` the line search
returns `t = 2⁻³¹ > 0` after 31 iterations (the cap was not hit), yet the
Armijo sufficient-decrease inequality fails at the returned `t`: the loop
exited because the bracket shrank below `minInterval`, a case the claim
omits. -/
theorem C6_counterexample :
    awLineSearch2 [0] fC6 [1] 0 40 = 1 / 2147483648 ∧
    0 < awLineSearch2 [0] fC6 [1] 0 40 ∧
    (awLineSearchAux fC6 [0] [1] 0 40).st.i ≤ 40 ∧
    ¬ armijoCond fC6 [0] [1] 0 (awLineSearch2 [0] fC6 [1] 0 40) := by
  have h := lineSearchC6
  refine ⟨?_, ?_, ?_, ?_⟩
  · rw [awLineSearch2, h]
  · rw [awLineSearch2, h]
    norm_num
  · rw [h]
    norm_num
  · rw [awLineSearch2, h]
    norm_num [armijoCond, fC6, addv, scalev, negv, dot, c1,
      List.zipWith_cons_cons, List.zipWith_nil_right, List.zipWith_nil_left,
      List.sum_cons, List.sum_nil, List.map_cons, List.map_nil]

/-! ### C1: frozen-index immutability from the builder's initial state -/

/-- Modelled from the spec: the compiled evaluator (the `genCode` output
of the external autodiff collaborator) for the concrete 2-D problem with
objective terms `(x₀ − 10)²` and `x₁²` and no constraints: primary
energy, exact symbolic gradient (with a hole at the extra EP-weight
input), and the two objective terms as secondary outputs. -/
def fcompC1 (args : List ℚ) : CompiledOut :=
  let x0 := args.getD 0 0
  let x1 := args.getD 1 0
  { primary := (x0 - 10) ^ 2 + x1 ^ 2
    gradient := fun i =>
      if i = 0 then some (2 * (x0 - 10))
      else if i = 1 then some (2 * x1) else none
    secondary := [(x0 - 10) ^ 2, x1 ^ 2] }

/-- Both parameters of the concrete problem are `Optimized`. -/
def inputsC1 : List InputMeta := [{ tag := .Optimized }, { tag := .Optimized }]

/-- The oracle the builder installs initially: bound to the initial
weight and to an **empty** frozen set (`new Set()`), ignoring the state's
frozen indices. -/
def oracleC1 : FnCached :=
  mkObjectiveAndGradient inputsC1 2 fcompC1 initConstraintWeight (some [])

/-- `genOptProblem`'s initial oracle is `oracleC1`. -/
theorem oracleC1_def :
    mkObjectiveAndGradient inputsC1 2 fcompC1 initConstraintWeight (some []) =
      oracleC1 := rfl

/-- The builder-initial state of the concrete 2-D problem with
`frozenValues = {1}` and `x₀ = (10, 7)`. -/
def sC1 : State :=
  { varyingValues := [10, 7]
    frozenValues := [1]
    params := genOptProblem inputsC1 2 fcompC1 }

/-- `oracleC1` at the start point `(10, 7)`: since the frozen set it was
bound to is empty, the gradient at the frozen index 1 is *not* masked. -/
theorem oracleC1_eval1 :
    oracleC1 [10, 7] =
      { f := 49, gradf := [0, 14], objEngs := [0, 49], constrEngs := [] } := by
  norm_num [oracleC1, mkObjectiveAndGradient, fcompC1, inputsC1,
    initConstraintWeight, List.range_succ, List.getD, List.get?]

/-- `oracleC1` at `(10, −7)` (the first line-search trial point). -/
theorem oracleC1_eval2 :
    oracleC1 [10, -7] =
      { f := 49, gradf := [0, -14], objEngs := [0, 49], constrEngs := [] } := by
  norm_num [oracleC1, mkObjectiveAndGradient, fcompC1, inputsC1,
    initConstraintWeight, List.range_succ, List.getD, List.get?]

/-- `oracleC1` at `(10, 0)` (the accepted line-search trial point). -/
theorem oracleC1_eval3 :
    oracleC1 [10, 0] =
      { f := 0, gradf := [0, 0], objEngs := [0, 0], constrEngs := [] } := by
  norm_num [oracleC1, mkObjectiveAndGradient, fcompC1, inputsC1,
    initConstraintWeight, List.range_succ, List.getD, List.get?]

/-- The line search of the run: the trial `t = 1` overshoots (Armijo
fails, `b ← 1`), and `t = 1/2` is accepted. -/
theorem lineSearchC1 :
    awLineSearchAux oracleC1 [10, 7] [0, 14] 49 10 =
      ⟨⟨0, some 1, 1 / 2, 1⟩, .accepted⟩ := by
  simp only [awLineSearchAux]
  rw [oracleC1_eval1]
  norm_num [negv, dot, List.zipWith_cons_cons, List.zipWith_nil_right,
    List.zipWith_nil_left, List.sum_cons, List.sum_nil, List.map_cons,
    List.map_nil]
  rw [awLoop]
  norm_num [shouldStop, intervalTooSmall, minInterval, armijo, weakWolfe,
    addv, scalev, dot, c1, c2, oracleC1_eval2, List.zipWith_cons_cons,
    List.zipWith_nil_right, List.zipWith_nil_left, List.sum_cons,
    List.sum_nil, List.map_cons, List.map_nil]
  rw [awLoop]
  norm_num [shouldStop, intervalTooSmall, minInterval, armijo, weakWolfe,
    addv, scalev, dot, c1, c2, oracleC1_eval3, abs_of_pos,
    List.zipWith_cons_cons, List.zipWith_nil_right, List.zipWith_nil_left,
    List.sum_cons, List.sum_nil, List.map_cons, List.map_nil]

/-- The L-BFGS state after the initial `lbfgs` call of the run. -/
def lbfgsC1 : LbfgsParams :=
  { lastState := some [10, 7]
    lastGrad := some [0, 14]
    s_list := []
    y_list := []
    numUnconstrSteps := 1
    memSize := 17 }

/-- The `minimize` result of the run: one iteration (the unmasked
gradient `(0, 14)` moves the frozen coordinate from `7` to `0`), then the
step budget is exhausted.  Note `energyVal = 49`, evaluated at the
pre-update iterate `(10, 7)`, not at the returned `(10, 0)`. -/
def minOutC1 : MinOut :=
  { st :=
      { xs := [10, 0]
        prevXs := [10, 7]
        fxs := 49
        gradfxs := [0, 14]
        gradientPreconditioned := [0, 14]
        normGradfxs := 196
        i := 1
        t := 1 / 2
        failed := false
        objEngs := [0, 49]
        constrEngs := []
        newLbfgsInfo := lbfgsC1 }
    exit := .exhausted }

/-- Evaluation of `minimize` on the concrete problem. -/
theorem minimizeC1 :
    minimize [10, 7] oracleC1 defaultLbfgsParams 1 = .ok minOutC1 := by
  rw [minimize]
  norm_num
  rw [minimizeLoop]
  norm_num [oracleC1_eval1, lbfgs, defaultLbfgsParams, dot,
    unconstrainedConverged2, uoStop, awLineSearch2, lineSearchC1, gdUpdate,
    List.zipWith_cons_cons, List.zipWith_nil_right, List.zipWith_nil_left,
    List.sum_cons, List.sum_nil, List.map_cons, List.map_nil]
  rw [minimizeLoop]
  norm_num [minOutC1, lbfgsC1, defaultLbfgsParams]

/-- C1: (code bug) the builder-initial state of the 2-D problem with
`frozenValues = {1}` and `x₀ = (10, 7)` does **not** keep `x[1] == 7`:
the very first `step` returns `x = (10, 0)`.  `genOptProblem` initializes
`optStatus` to `UnconstrainedRunning` with `currObjectiveAndGradient`
bound to an empty frozen set (`new Set()`), bypassing the `NewIter`
branch that would have bound the oracle to the state's `frozenValues`, so
the first inner round optimizes the frozen coordinate. -/
theorem C1_frozen_moves :
    sC1.frozenValues = [1] ∧
    sC1.varyingValues.getD 1 0 = 7 ∧
    (step sC1 1).toOption.map (fun s => s.varyingValues.getD 1 0) = some 0 ∧
    (0 : ℚ) ≠ 7 := by
  refine ⟨rfl, rfl, ?_, by norm_num⟩
  simp only [step]
  norm_num [sC1, genOptProblem, oracleC1_def, minimizeC1, minOutC1,
    unconstrainedConverged2, uoStop, lbfgsC1, List.getD, List.get?]
  exact ⟨_, rfl, rfl⟩

/-- C10 witness: the concrete run of `minimizeC1` exhausts its single
step; the returned energy `49` is the oracle's value at the pre-update
iterate `(10, 7)`, the returned `xs = (10, 0)` is that iterate's
gradient-descent update, and re-evaluating the oracle at the returned
`xs` would give `0 ≠ 49`. -/
theorem C10_witness :
    minOutC1.st.fxs = (oracleC1 minOutC1.st.prevXs).f ∧
    minOutC1.st.xs = gdUpdate minOutC1.st.prevXs minOutC1.st.t
      minOutC1.st.gradientPreconditioned ∧
    minOutC1.st.fxs ≠ (oracleC1 minOutC1.st.xs).f := by
  have h := C10_energy_lag [10, 7] oracleC1 defaultLbfgsParams 1 minOutC1
    minimizeC1 rfl
  exact ⟨h.1, h.2, by norm_num [minOutC1, oracleC1_eval3]⟩

end PenroseOpt
